import Mathlib

/-
Shallow embedding of the astrbot IPMI plugin (src/main.py): registry loading
from configuration entries, the seven command handlers, the external ipmitool
runner and the pyghmi library runner.  External effects (the JSON text parser
applied to configuration strings, child processes, the BMC client library) are
represented by oracle values standing for their observable outcomes.
-/

/-- JSON values as produced by json.loads (numbers restricted to integers; no
claim involves non-integral numbers). -/
inductive Json where
  | null : Json
  | bool (b : Bool) : Json
  | num (n : Int) : Json
  | str (s : String) : Json
  | arr (elems : List Json) : Json
  | obj (fields : List (String × Json)) : Json

/-- Lookup in an object's field list with the semantics of a Python dict built
by json.loads: a later duplicate key overwrites an earlier one. -/
def getField (fields : List (String × Json)) (key : String) : Option Json :=
  match fields with
  | [] => none
  | (k, v) :: rest =>
    match getField rest key with
    | some r => some r
    | none => if k = key then some v else none

/-- Field access on a JSON value; non-objects have no fields. -/
def Json.get? : Json → String → Option Json
  | .obj fields, key => getField fields key
  | _, _ => none

/-- Python truthiness of a JSON value (bool(v) for values json.loads returns). -/
def jsonFalsy : Json → Bool
  | .null => true
  | .bool b => !b
  | .num n => n = 0
  | .str s => s = ""
  | .arr elems => elems.isEmpty
  | .obj fields => fields.isEmpty

/-- Whether a byte is a UTF-8 continuation byte (0x80-0xBF). -/
def isCont (b : Nat) : Bool := 0x80 ≤ b && b ≤ 0xBF

/-- Allowed first continuation byte after a three-byte lead; excludes overlong
encodings (lead 0xE0) and surrogates (lead 0xED), as CPython's decoder does. -/
def cont3Ok (lead c1 : Nat) : Bool :=
  if lead = 0xE0 then 0xA0 ≤ c1 && c1 ≤ 0xBF
  else if lead = 0xED then 0x80 ≤ c1 && c1 ≤ 0x9F
  else isCont c1

/-- Allowed first continuation byte after a four-byte lead; excludes overlong
encodings (lead 0xF0) and scalars beyond 0x10FFFF (lead 0xF4). -/
def cont4Ok (lead c1 : Nat) : Bool :=
  if lead = 0xF0 then 0x90 ≤ c1 && c1 ≤ 0xBF
  else if lead = 0xF4 then 0x80 ≤ c1 && c1 ≤ 0x8F
  else isCont c1

/-- One step of UTF-8 decoding: either one scalar decoded from the front, or
none for an invalid sequence, together with the bytes still to process (on an
invalid sequence the lead byte is skipped, resynchronising at the next byte). -/
def utf8Step : List Nat → Option Char × List Nat
  | [] => (none, [])
  | b :: rest =>
    if b < 0x80 then (some (Char.ofNat b), rest)
    else if b < 0xC2 then (none, rest)
    else if b ≤ 0xDF then
      match rest with
      | c1 :: rest1 =>
        if isCont c1 then (some (Char.ofNat ((b - 0xC0) * 64 + (c1 - 0x80))), rest1)
        else (none, rest)
      | [] => (none, [])
    else if b ≤ 0xEF then
      match rest with
      | c1 :: c2 :: rest2 =>
        if cont3Ok b c1 && isCont c2 then
          (some (Char.ofNat ((b - 0xE0) * 4096 + (c1 - 0x80) * 64 + (c2 - 0x80))), rest2)
        else (none, rest)
      | _ => (none, rest)
    else if b ≤ 0xF4 then
      match rest with
      | c1 :: c2 :: c3 :: rest3 =>
        if cont4Ok b c1 && isCont c2 && isCont c3 then
          (some (Char.ofNat ((b - 0xF0) * 262144 + (c1 - 0x80) * 4096 + (c2 - 0x80) * 64 + (c3 - 0x80))), rest3)
        else (none, rest)
      | _ => (none, rest)
    else (none, rest)

/-- Fuelled UTF-8 decode loop; repl selects errors=replace (emit U+FFFD for an
invalid sequence) versus errors=ignore (drop it).  Fuel equal to the byte count
suffices because every step consumes at least one byte. -/
def utf8DecodeAux (repl : Bool) : Nat → List Nat → List Char
  | 0, _ => []
  | _, [] => []
  | Nat.succ fuel, b :: rest =>
    match utf8Step (b :: rest) with
    | (some c, rest1) => c :: utf8DecodeAux repl fuel rest1
    | (none, rest1) =>
      if repl then Char.ofNat 0xFFFD :: utf8DecodeAux repl fuel rest1
      else utf8DecodeAux repl fuel rest1

/-- bytes.decode with errors=ignore, as called at src/main.py lines 239, 242. -/
def utf8DecodeIgnore (bs : List Nat) : String :=
  String.mk (utf8DecodeAux false bs.length bs)

/-- Modelled from the spec: a decoder in which every invalid byte sequence is
replaced by U+FFFD (errors=replace).  Stated only so the spec's wording about
replacement can be compared with the source, which decodes with errors=ignore. -/
def specUtf8DecodeReplace (bs : List Nat) : String :=
  String.mk (utf8DecodeAux true bs.length bs)

/-- Whitespace removed by Python str.strip (the ASCII whitespace characters;
the tool output relevant to the claims is ASCII). -/
def pyIsSpace (c : Char) : Bool :=
  c = ' ' || c = '\t' || c = '\n' || c = '\x0b' || c = '\x0c' || c = '\r'

/-- Python str.strip(): whitespace removed from both ends. -/
def pyStrip (s : String) : String :=
  String.mk (((s.toList.dropWhile pyIsSpace).reverse.dropWhile pyIsSpace).reverse)

/-- Modelled from the spec: trimming only trailing whitespace, for comparison
with the source's both-ends strip. -/
def specStripTrailing (s : String) : String :=
  String.mk ((s.toList.reverse.dropWhile pyIsSpace).reverse)

/-- String field of a server record; validated registry entries always carry
the accessed keys, so the default branch is unreachable on registry members
(in Python a missing key would raise KeyError). -/
def serverStr (srv : Json) (key : String) : String :=
  match srv.get? key with
  | some (.str v) => v
  | _ => ""

/-- Observable outcome of asyncio.create_subprocess_exec plus communicate():
the child completed with a return code and captured output bytes, the
executable was not found (FileNotFoundError), or some other exception. -/
inductive SpawnOutcome where
  | completed (returncode : Int) (stdoutBytes stderrBytes : List Nat) : SpawnOutcome
  | fileNotFound : SpawnOutcome
  | raised (msg : String) : SpawnOutcome

/-- Space-joined command text as in the source's join over command_parts. -/
def joinSpace (parts : List String) : String := String.intercalate " " parts

/-- Reply for a zero exit status (src/main.py line 240). -/
def successReply (command_parts : List String) (out : String) : String :=
  "执行 \x27ipmitool " ++ joinSpace command_parts ++ "\x27 成功:\n```\n" ++ out ++ "\n```"

/-- Reply for a non-zero exit status (src/main.py line 243). -/
def failureReply (command_parts : List String) (code : Int) (err : String) : String :=
  "执行 \x27ipmitool " ++ joinSpace command_parts ++ "\x27 失败 (Code: " ++ toString code ++ "):\n```\n" ++ err ++ "\n```"

/-- Reply when self.ipmitool_path is None (src/main.py line 214). -/
def toolMissingReply : String := "错误: 未找到 ipmitool, 无法执行此操作。"

/-- Reply when the spawn raises FileNotFoundError (src/main.py line 246). -/
def execNotFoundReply : String := "错误: ipmitool 可执行文件未找到。"

/-- Reply for any other exception while spawning (src/main.py line 249). -/
def unexpectedReply (msg : String) : String := "执行ipmitool时发生未知错误: " ++ msg

/-- Full argument vector built at src/main.py lines 216-221. -/
def buildCmd (path : String) (srv : Json) (command_parts : List String) : List String :=
  [path, "-I", "lanplus",
   "-H", serverStr srv "host", "-U", serverStr srv "username",
   "-P", serverStr srv "password"] ++ command_parts

/-- run_ipmitool_cli_streaming (src/main.py lines 212-249).  Returns the reply
string and whether a spawn was attempted (create_subprocess_exec reached). -/
def run_ipmitool_cli_streaming :
    Option String → (List String → SpawnOutcome) → Json → List String → String × Bool
  | none, _, _, _ => (toolMissingReply, false)
  | some p, spawn, srv, command_parts =>
    match spawn (buildCmd p srv command_parts) with
    | .completed rc outB errB =>
      if rc = 0 then (successReply command_parts (pyStrip (utf8DecodeIgnore outB)), true)
      else (failureReply command_parts rc (pyStrip (utf8DecodeIgnore errB)), true)
    | .fileNotFound => (execNotFoundReply, true)
    | .raised msg => (unexpectedReply msg, true)

/-- Observable outcome of the pyghmi calls inside ipmi_sync_call: either the
dict returned by get_power, or an exception (from Command construction or the
query) rendered as its message text. -/
inductive PyghmiOutcome where
  | ok (powerDict : List (String × String)) : PyghmiOutcome
  | raised (msg : String) : PyghmiOutcome

/-- Python str.lower() restricted to ASCII case mapping (the compared
subcommand and operation tokens are ASCII). -/
def pyLower (s : String) : String := String.mk (s.toList.map Char.toLower)

/-- Python dict.get on the power dict (first binding wins; pyghmi returns a
dict, so keys are unique). -/
def dictGet (d : List (String × String)) (key : String) : Option String :=
  (d.find? (fun p => p.1 = key)).map (fun p => p.2)

/-- run_pyghmi_command (src/main.py lines 251-270): the try block converts any
exception to a failure sentence; on success the power branch reports the
powerstate value, defaulting to the literal 未知 when the key is absent. -/
def run_pyghmi_command (srv : Json) (operation : String) (oracle : PyghmiOutcome) : String :=
  match oracle with
  | .raised msg => "通过 pyghmi 获取信息失败: " ++ msg
  | .ok d =>
    if pyLower operation = "power" then
      "服务器 \x27" ++ serverStr srv "name" ++ "\x27 的电源状态是: " ++
        ((dictGet d "powerstate").getD "未知")
    else "内部错误: pyghmi 不应处理此操作。"

/-- Plugin state after construction: the tool path resolved at startup, the
validated server list, and the sensor-group table keyed by the name value of
the defining record (assignment order preserved; a repeated key is overwritten,
modelled by taking the last binding on lookup). -/
structure Plugin where
  ipmitool_path : Option String
  servers : List Json
  sensor_groups : List (Json × Json)

/-- Oracles for the two execution strategies during one dispatch. -/
structure Env where
  spawn : List String → SpawnOutcome
  pyghmi : PyghmiOutcome

/-- Calls issued to the two execution strategies during one dispatch: the
command_parts of each external-tool invocation and the operation of each
library invocation. -/
structure Effects where
  cli : List (List String)
  pyghmi : List String

/-- No strategy was invoked. -/
def noCalls : Effects := ⟨[], []⟩

/-- self.sensor_groups.get(name) with a Python-dict lookup (last assignment to
an equal key wins); absent or non-str keys never match a string name.  The
stored value is always a dict by the isinstance guard at load time. -/
def sensorGroupsGet (m : List (Json × Json)) (name : String) : List (String × Json) :=
  match m.reverse.find? (fun p => match p.1 with | .str k => k = name | _ => false) with
  | some p => match p.2 with | .obj fields => fields | _ => []
  | none => []

/-- _find_target_server (src/main.py lines 94-96): first server whose name
value equals the target string (a non-string name value never equals it). -/
def find_target_server (servers : List Json) (target_name : String) : Option Json :=
  servers.find? (fun s => match s.get? "name" with | some (.str v) => v = target_name | _ => false)

/-- Reply of every handler when the target does not resolve. -/
def notFoundReply (target_name : String) : String :=
  "未找到名为 \x27" ++ target_name ++ "\x27 的服务器。"

/-- All-string JSON array elements, or none when some element is not a string
(Python would then hand a non-string argument to the runner, raising at the
join in the log call; that region is outside the model). -/
def strElems : List Json → Option (List String)
  | [] => some []
  | .str s :: rest => (strElems rest).map (fun xs => s :: xs)
  | _ :: _ => none

/-- Python iteration of a sensor_list value as a list of strings: a string
iterates to its characters, an array of strings to its elements; anything else
is outside the model (Python raises or feeds non-strings to the runner). -/
def pyIterStrs : Json → Option (List String)
  | .str s => some (s.toList.map (fun c => String.mk [c]))
  | .arr elems => strElems elems
  | _ => none

/-- Reply when the group is absent or its sensor list is falsy (line 206). -/
def groupNotFoundReply (server_name group_name : String) : String :=
  "在服务器 \x27" ++ server_name ++ "\x27 中未找到名为 \x27" ++ group_name ++
    "\x27 的传感器组。"

/-- Header of the aggregated fan-out reply (src/main.py line 210). -/
def groupHeader (group_name : String) : String :=
  "传感器组 \x27" ++ group_name ++ "\x27 查询结果:\n"

/-- Runner invocations issued by the fan-out: one per sensor, in list order. -/
def groupCalls (sensors : List String) : List (List String) :=
  sensors.map (fun sensor => ["sensor", "get", sensor])

/-- _handle_sensor_group (src/main.py lines 200-210).  Returns the aggregated
reply and the list of per-sensor runner invocations (command_parts), or none
when the stored sensor_list is of a shape the model does not cover. -/
def handle_sensor_group (p : Plugin) (env : Env) (srv : Json) (group_name : String) :
    Option (String × List (List String)) :=
  match getField (sensorGroupsGet p.sensor_groups (serverStr srv "name")) group_name with
  | none => some (groupNotFoundReply (serverStr srv "name") group_name, [])
  | some v =>
    if jsonFalsy v then some (groupNotFoundReply (serverStr srv "name") group_name, [])
    else
      match pyIterStrs v with
      | none => none
      | some sensors =>
        some (groupHeader group_name ++ String.intercalate "\n"
          ((groupCalls sensors).map
            (fun parts => (run_ipmitool_cli_streaming p.ipmitool_path env.spawn srv parts).1)),
          groupCalls sensors)

/-- ipmi_power (src/main.py lines 113-121): the not-found reply, or a progress
reply followed by the library runner's result. -/
def ipmi_power (p : Plugin) (env : Env) (target_name : String) : List String × Effects :=
  match find_target_server p.servers target_name with
  | none => ([notFoundReply target_name], noCalls)
  | some srv =>
    (["正在对 \x27" ++ target_name ++ "\x27 查询电源状态...",
      run_pyghmi_command srv "power" env.pyghmi],
     ⟨[], ["power"]⟩)

/-- ipmi_sensors (src/main.py lines 123-131). -/
def ipmi_sensors (p : Plugin) (env : Env) (target_name : String) : List String × Effects :=
  match find_target_server p.servers target_name with
  | none => ([notFoundReply target_name], noCalls)
  | some srv =>
    (["正在对 \x27" ++ target_name ++ "\x27 查询所有传感器...",
      (run_ipmitool_cli_streaming p.ipmitool_path env.spawn srv ["sensor", "list"]).1],
     ⟨[["sensor", "list"]], []⟩)

/-- ipmi_sensor (src/main.py lines 133-141): no validation of sensor_name is
performed before the runner call. -/
def ipmi_sensor (p : Plugin) (env : Env) (target_name sensor_name : String) :
    List String × Effects :=
  match find_target_server p.servers target_name with
  | none => ([notFoundReply target_name], noCalls)
  | some srv =>
    (["正在对 \x27" ++ target_name ++ "\x27 查询传感器 \x27" ++ sensor_name ++ "\x27...",
      (run_ipmitool_cli_streaming p.ipmitool_path env.spawn srv ["sensor", "get", sensor_name]).1],
     ⟨[["sensor", "get", sensor_name]], []⟩)

/-- ipmi_group (src/main.py lines 143-158); none only when the fan-out hits
the unmodelled region of handle_sensor_group. -/
def ipmi_group (p : Plugin) (env : Env) (target_name group_name : String) :
    Option (List String × Effects) :=
  match find_target_server p.servers target_name with
  | none => some ([notFoundReply target_name], noCalls)
  | some srv =>
    if group_name = "" ∨ (getField (sensorGroupsGet p.sensor_groups target_name) group_name).isNone then
      some (["请提供有效的传感器组名称。\n可用组: " ++
        (if (sensorGroupsGet p.sensor_groups target_name).isEmpty then "无"
         else String.intercalate ", "
           ((sensorGroupsGet p.sensor_groups target_name).map (fun gr => gr.1)))],
        noCalls)
    else
      match handle_sensor_group p env srv group_name with
      | none => none
      | some (result, calls) =>
        some (["正在对 \x27" ++ target_name ++ "\x27 查询传感器组 \x27" ++ group_name ++ "\x27...",
          result], ⟨calls, []⟩)

/-- ipmi_fru (src/main.py lines 160-168). -/
def ipmi_fru (p : Plugin) (env : Env) (target_name : String) : List String × Effects :=
  match find_target_server p.servers target_name with
  | none => ([notFoundReply target_name], noCalls)
  | some srv =>
    (["正在对 \x27" ++ target_name ++ "\x27 查询 FRU 信息...",
      (run_ipmitool_cli_streaming p.ipmitool_path env.spawn srv ["fru"]).1],
     ⟨[["fru"]], []⟩)

/-- ipmi_sel (src/main.py lines 170-182): the subcommand is checked first,
case-insensitively, before the target is resolved. -/
def ipmi_sel (p : Plugin) (env : Env) (subcommand target_name : String) :
    List String × Effects :=
  if pyLower subcommand ≠ "list" then
    (["未知 \x27sel\x27 子命令: \x27" ++ subcommand ++ "\x27. 可用: list"], noCalls)
  else
    match find_target_server p.servers target_name with
    | none => ([notFoundReply target_name], noCalls)
    | some srv =>
      (["正在对 \x27" ++ target_name ++ "\x27 查询 SEL 日志...",
        (run_ipmitool_cli_streaming p.ipmitool_path env.spawn srv ["sel", "list"]).1],
       ⟨[["sel", "list"]], []⟩)

/-- ipmi_chassis (src/main.py lines 184-196). -/
def ipmi_chassis (p : Plugin) (env : Env) (subcommand target_name : String) :
    List String × Effects :=
  if pyLower subcommand ≠ "status" then
    (["未知 \x27chassis\x27 子命令: \x27" ++ subcommand ++ "\x27. 可用: status"], noCalls)
  else
    match find_target_server p.servers target_name with
    | none => ([notFoundReply target_name], noCalls)
    | some srv =>
      (["正在对 \x27" ++ target_name ++ "\x27 查询机箱状态...",
        (run_ipmitool_cli_streaming p.ipmitool_path env.spawn srv ["chassis", "status"]).1],
       ⟨[["chassis", "status"]], []⟩)

/-- One configuration entry as seen after the external JSON layer: either not
a string at all, a string json.loads rejects (JSONDecodeError), or a string
decoding to the given JSON value. -/
inductive ConfigEntry where
  | nonString : ConfigEntry
  | badJson : ConfigEntry
  | decoded (j : Json) : ConfigEntry

/-- Whether a JSON value may be a Python dict key (lists and dicts are
unhashable; using one as a key raises TypeError). -/
def jsonHashable : Json → Bool
  | .arr _ => false
  | .obj _ => false
  | _ => true

/-- The four keys required of a server record (src/main.py line 39). -/
def hasAllKeys (fields : List (String × Json)) : Bool :=
  (["name", "host", "username", "password"].all (fun k => (getField fields k).isSome))

/-- Registry contents built by the constructor loop. -/
structure RegistryState where
  servers : List Json
  sensor_groups : List (Json × Json)

/-- One iteration of the constructor loop (src/main.py lines 33-48).  A
non-string or undecodable entry is logged and skipped; a decoded value that is
not a dict or lacks a required key is logged and skipped; otherwise the
sensor_groups assignment runs (raising an uncaught TypeError when the name
value is unhashable) and the record is appended. -/
def loadStep (st : RegistryState) (entry : ConfigEntry) : Except String RegistryState :=
  match entry with
  | .nonString => .ok st
  | .badJson => .ok st
  | .decoded j =>
    match j with
    | .obj fields =>
      if hasAllKeys fields then
        match getField fields "sensor_groups" with
        | some (Json.obj gs) =>
          let nameVal := (getField fields "name").getD Json.null
          if jsonHashable nameVal then
            .ok ⟨st.servers ++ [j], st.sensor_groups ++ [(nameVal, Json.obj gs)]⟩
          else .error "TypeError: unhashable type"
        | _ => .ok ⟨st.servers ++ [j], st.sensor_groups⟩
      else .ok st
    | _ => .ok st

/-- The constructor loop over the configured entries (src/main.py lines
33-48); an error aborts the whole construction, as an uncaught exception in
the loop would. -/
def loadServers (entries : List ConfigEntry) : Except String RegistryState :=
  entries.foldlM loadStep ⟨[], []⟩

/-- Prefix test on character lists. -/
def charsPrefixOf : List Char → List Char → Bool
  | [], _ => true
  | _ :: _, [] => false
  | a :: as, b :: bs => a = b && charsPrefixOf as bs

/-- Contiguous-infix test on character lists. -/
def charsInfixOf (sub : List Char) : List Char → Bool
  | [] => charsPrefixOf sub []
  | b :: bs => charsPrefixOf sub (b :: bs) || charsInfixOf sub bs

/-- Substring test used to state whether a reply lists a server name. -/
def strContains (s sub : String) : Bool := charsInfixOf sub.toList s.toList

/-- Fixture: a validated server record named alpha. -/
def srvAlpha : Json := Json.obj [("name", Json.str "alpha"), ("host", Json.str "10.0.0.1"),
  ("username", Json.str "u"), ("password", Json.str "p")]

/-- Fixture: a plugin with one registered server and no sensor groups. -/
def pluginAlpha : Plugin := ⟨some "/tool", [srvAlpha], []⟩

/-- Fixture: oracles for a healthy environment (tool exits 0 with empty
output, the BMC reports powerstate on). -/
def envPowerOn : Env :=
  ⟨fun _ => SpawnOutcome.completed 0 [] [], PyghmiOutcome.ok [("powerstate", "on")]⟩

/-- Fixture: the bytes of the text Done. -/
def doneBytes : List Nat := [68, 111, 110, 101]

/-- Fixture: child exits 0 with stdout Done. -/
def spawnDone : List String → SpawnOutcome :=
  fun _ => SpawnOutcome.completed 0 doneBytes []

/-- Fixture: child exits 0 with stdout a space followed by Done. -/
def spawnDoneSpace : List String → SpawnOutcome :=
  fun _ => SpawnOutcome.completed 0 (32 :: doneBytes) []

/-- Fixture: child exits 1 with the stderr text bad creds. -/
def spawnBadCreds : List String → SpawnOutcome :=
  fun _ => SpawnOutcome.completed 1 [] [98, 97, 100, 32, 99, 114, 101, 100, 115]

/-- Fixture: the spawn raises FileNotFoundError (executable absent although
the path was resolved at startup). -/
def spawnAbsent : List String → SpawnOutcome := fun _ => SpawnOutcome.fileNotFound

/-- Fixture: child exits 0 with stdout holding an invalid UTF-8 byte 0xFF
followed by the letter A. -/
def spawnInvalidBytes : List String → SpawnOutcome :=
  fun _ => SpawnOutcome.completed 0 [255, 65] []

/-- Fixture: plugin whose server alpha has a sensor group temps with two
sensors. -/
def pluginTemps : Plugin :=
  ⟨some "/tool", [srvAlpha],
   [(Json.str "alpha", Json.obj [("temps", Json.arr [Json.str "CPU1_Temp", Json.str "CPU2_Temp"])])]⟩

/-- Fixture: CPU1_Temp succeeds with output 40C, every other invocation fails
with exit code 1 and stderr err. -/
def envTemps : Env :=
  ⟨fun cmd =>
    if cmd = buildCmd "/tool" srvAlpha ["sensor", "get", "CPU1_Temp"] then
      SpawnOutcome.completed 0 [52, 48, 67] []
    else SpawnOutcome.completed 1 [] [101, 114, 114],
   PyghmiOutcome.ok []⟩

/-- Fixture: a decoded configuration record holding all four required keys but
an unhashable (list-valued) name, plus a sensor_groups dict. -/
def unhashableRecord : Json := Json.obj [("name", Json.arr [Json.str "x"]),
  ("host", Json.str "h"), ("username", Json.str "u"), ("password", Json.str "p"),
  ("sensor_groups", Json.obj [])]

/-- Fixture: the spawn raises an unexpected OSError rendered as boom. -/
def spawnRaise : List String → SpawnOutcome := fun _ => SpawnOutcome.raised "boom"

/-- Helper: an all-string JSON array iterates to exactly its elements. -/
theorem strElems_map_str (xs : List String) : strElems (xs.map Json.str) = some xs := by
  induction xs with
  | nil => rfl
  | cons a as ih => simp [strElems, ih]

/-- C3 counterexample: with exit status 0 and stdout a space followed by Done,
the runner reply carries Done with the leading space removed as well, not the
text with only trailing whitespace trimmed, so the claim as stated fails. -/
theorem C3_counterexample :
    (run_ipmitool_cli_streaming (some "/tool") spawnDoneSpace srvAlpha ["sensor", "list"]).1 =
      successReply ["sensor", "list"] "Done" ∧
    (run_ipmitool_cli_streaming (some "/tool") spawnDoneSpace srvAlpha ["sensor", "list"]).1 ≠
      successReply ["sensor", "list"]
        (specStripTrailing (utf8DecodeIgnore (32 :: doneBytes))) := by
  exact ⟨rfl, by decide⟩

/-- C3 (amended): when the child completes, exit status zero yields the
success reply carrying stdout decoded and stripped of leading and trailing
whitespace, and a non-zero status yields the failure reply carrying the exit
code and stderr likewise stripped of leading and trailing whitespace. -/
theorem C3_exit_status_mapping (path : String) (spawn : List String → SpawnOutcome)
    (srv : Json) (parts : List String) (rc : Int) (outB errB : List Nat)
    (h : spawn (buildCmd path srv parts) = SpawnOutcome.completed rc outB errB) :
    run_ipmitool_cli_streaming (some path) spawn srv parts =
      (if rc = 0 then successReply parts (pyStrip (utf8DecodeIgnore outB))
       else failureReply parts rc (pyStrip (utf8DecodeIgnore errB)), true) := by
  simp only [run_ipmitool_cli_streaming]
  rw [h]
  by_cases h0 : rc = 0 <;> simp [h0]

/-- C3 witness: exit 0 with stdout Done yields the success reply carrying
Done; exit 1 with stderr bad creds yields the failure reply carrying code 1
and bad creds. -/
theorem C3_exit_status_mapping_witness :
    run_ipmitool_cli_streaming (some "/tool") spawnDone srvAlpha ["sensor", "list"] =
      (successReply ["sensor", "list"] "Done", true) ∧
    run_ipmitool_cli_streaming (some "/tool") spawnBadCreds srvAlpha ["sensor", "list"] =
      (failureReply ["sensor", "list"] 1 "bad creds", true) := by
  constructor
  · exact (C3_exit_status_mapping "/tool" spawnDone srvAlpha ["sensor", "list"] 0 doneBytes []
      rfl).trans (by decide)
  · exact (C3_exit_status_mapping "/tool" spawnBadCreds srvAlpha ["sensor", "list"] 1 []
      [98, 97, 100, 32, 99, 114, 101, 100, 115] rfl).trans (by decide)

/-- C4 counterexample: with the path resolved but the executable absent, the
spawn is attempted (FileNotFoundError is raised by the attempt and then
caught), contradicting the claim that no spawn attempt is made. -/
theorem C4_counterexample :
    (run_ipmitool_cli_streaming (some "/tool") spawnAbsent srvAlpha ["fru"]).2 ≠ false ∧
    run_ipmitool_cli_streaming (some "/tool") spawnAbsent srvAlpha ["fru"] =
      (execNotFoundReply, true) := by
  exact ⟨by decide, rfl⟩

/-- C4 (amended): when the tool path is unresolved (None) at call time the
runner returns the tool-missing failure without attempting to spawn; when the
path is set but the executable is absent, the spawn is attempted, raises
FileNotFoundError, and is converted to the executable-not-found failure. -/
theorem C4_tool_missing (spawn : List String → SpawnOutcome) (srv : Json)
    (parts : List String) :
    run_ipmitool_cli_streaming none spawn srv parts = (toolMissingReply, false) ∧
    (∀ path, spawn (buildCmd path srv parts) = SpawnOutcome.fileNotFound →
      run_ipmitool_cli_streaming (some path) spawn srv parts = (execNotFoundReply, true)) := by
  refine ⟨rfl, ?_⟩
  intro path h
  simp only [run_ipmitool_cli_streaming]
  rw [h]

/-- C4 witness at concrete inputs for both conjuncts. -/
theorem C4_tool_missing_witness :
    run_ipmitool_cli_streaming none spawnDone srvAlpha ["fru"] = (toolMissingReply, false) ∧
    run_ipmitool_cli_streaming (some "/tool") spawnAbsent srvAlpha ["fru"] =
      (execNotFoundReply, true) :=
  ⟨(C4_tool_missing spawnDone srvAlpha ["fru"]).1,
   (C4_tool_missing spawnAbsent srvAlpha ["fru"]).2 "/tool" rfl⟩

/-- C5 counterexample: stdout 0xFF 0x41 with exit 0 yields the success reply
carrying A (the invalid byte is dropped), not the reply predicted by
replacement decoding (U+FFFD followed by A), so invalid sequences are ignored
rather than replaced. -/
theorem C5_counterexample :
    (run_ipmitool_cli_streaming (some "/tool") spawnInvalidBytes srvAlpha ["fru"]).1 =
      successReply ["fru"] "A" ∧
    (run_ipmitool_cli_streaming (some "/tool") spawnInvalidBytes srvAlpha ["fru"]).1 ≠
      successReply ["fru"] (pyStrip (specUtf8DecodeReplace [255, 65])) := by
  exact ⟨rfl, by decide⟩

/-- C5 (amended): decoding never fails the invocation: for every captured byte
strings, a completed child still produces a normal success or failure reply
(invalid byte sequences are dropped by errors=ignore, not replaced). -/
theorem C5_decode_never_fails (path : String) (spawn : List String → SpawnOutcome)
    (srv : Json) (parts : List String) (rc : Int) (outB errB : List Nat)
    (h : spawn (buildCmd path srv parts) = SpawnOutcome.completed rc outB errB) :
    (∃ t, (run_ipmitool_cli_streaming (some path) spawn srv parts).1 = successReply parts t) ∨
    (∃ t, (run_ipmitool_cli_streaming (some path) spawn srv parts).1 =
      failureReply parts rc t) := by
  simp only [run_ipmitool_cli_streaming]
  rw [h]
  by_cases h0 : rc = 0
  · exact Or.inl ⟨pyStrip (utf8DecodeIgnore outB), by simp [h0]⟩
  · exact Or.inr ⟨pyStrip (utf8DecodeIgnore errB), by simp [h0]⟩

/-- C5 witness: a stdout containing an invalid UTF-8 byte still yields a
normal reply. -/
theorem C5_decode_never_fails_witness :
    (∃ t, (run_ipmitool_cli_streaming (some "/tool") spawnInvalidBytes srvAlpha ["fru"]).1 =
      successReply ["fru"] t) ∨
    (∃ t, (run_ipmitool_cli_streaming (some "/tool") spawnInvalidBytes srvAlpha ["fru"]).1 =
      failureReply ["fru"] 0 t) :=
  C5_decode_never_fails "/tool" spawnInvalidBytes srvAlpha ["fru"] 0 [255, 65] [] rfl

/-- C7 counterexample: a sensor invocation with an empty sensor name is not
rejected with a usage reply; the handler emits a progress reply and invokes
the External-Tool Runner with the empty name. -/
theorem C7_counterexample :
    ipmi_sensor pluginAlpha envPowerOn "alpha" "" =
      (["正在对 \x27alpha\x27 查询传感器 \x27\x27...",
        successReply ["sensor", "get", ""] ""],
       ⟨[["sensor", "get", ""]], []⟩) ∧
    (ipmi_sensor pluginAlpha envPowerOn "alpha" "").2.cli ≠ [] := by
  exact ⟨rfl, by decide⟩

/-- C7 (amended): the sensor handler performs no emptiness validation of the
detail argument: whenever the target resolves, the External-Tool Runner is
invoked with sensor get and the given name, even when the name is empty. -/
theorem C7_no_empty_check (p : Plugin) (env : Env) (t s : String) (srv : Json)
    (h : find_target_server p.servers t = some srv) :
    ipmi_sensor p env t s =
      (["正在对 \x27" ++ t ++ "\x27 查询传感器 \x27" ++ s ++ "\x27...",
        (run_ipmitool_cli_streaming p.ipmitool_path env.spawn srv ["sensor", "get", s]).1],
       ⟨[["sensor", "get", s]], []⟩) := by
  unfold ipmi_sensor
  rw [h]

/-- C7 witness at the empty sensor name. -/
theorem C7_no_empty_check_witness :
    ipmi_sensor pluginAlpha envPowerOn "alpha" "" =
      (["正在对 \x27" ++ "alpha" ++ "\x27 查询传感器 \x27" ++ "" ++ "\x27...",
        (run_ipmitool_cli_streaming pluginAlpha.ipmitool_path envPowerOn.spawn srvAlpha
          ["sensor", "get", ""]).1],
       ⟨[["sensor", "get", ""]], []⟩) :=
  C7_no_empty_check pluginAlpha envPowerOn "alpha" "" srvAlpha rfl

/-- C8 (code bug): a configuration entry that decodes to an object with all
four required keys, a sensor_groups dict, and a list-valued name makes the
constructor loop use an unhashable dict key; the resulting TypeError is not
caught (only JSONDecodeError is), so construction aborts and the following
valid entry never enters the Registry, contrary to the per-entry isolation
the loop's own error handling is designed for. -/
theorem C8_unhashable_name_aborts_load :
    loadServers [ConfigEntry.decoded unhashableRecord, ConfigEntry.decoded srvAlpha] =
      Except.error "TypeError: unhashable type" := rfl

/-- C9: the library runner converts any fault of the underlying pyghmi call
into a textual failure message; on success it reports the server name and the
powerstate field, with the literal unknown token 未知 when the field is
absent. -/
theorem C9_library_runner (srv : Json) (msg : String) (d : List (String × String)) :
    run_pyghmi_command srv "power" (PyghmiOutcome.raised msg) =
      "通过 pyghmi 获取信息失败: " ++ msg ∧
    run_pyghmi_command srv "power" (PyghmiOutcome.ok d) =
      "服务器 \x27" ++ serverStr srv "name" ++ "\x27 的电源状态是: " ++
        ((dictGet d "powerstate").getD "未知") ∧
    (dictGet d "powerstate" = none →
      run_pyghmi_command srv "power" (PyghmiOutcome.ok d) =
        "服务器 \x27" ++ serverStr srv "name" ++ "\x27 的电源状态是: " ++ "未知") := by
  refine ⟨rfl, rfl, ?_⟩
  intro h
  have hp : pyLower "power" = "power" := by decide
  simp [run_pyghmi_command, hp, h]

/-- C9 witness: a fault message, a present powerstate, and an absent one. -/
theorem C9_library_runner_witness :
    run_pyghmi_command srvAlpha "power" (PyghmiOutcome.raised "timeout") =
      "通过 pyghmi 获取信息失败: " ++ "timeout" ∧
    run_pyghmi_command srvAlpha "power" (PyghmiOutcome.ok [("powerstate", "on")]) =
      "服务器 \x27" ++ serverStr srvAlpha "name" ++ "\x27 的电源状态是: " ++
        ((dictGet [("powerstate", "on")] "powerstate").getD "未知") ∧
    run_pyghmi_command srvAlpha "power" (PyghmiOutcome.ok []) =
      "服务器 \x27" ++ serverStr srvAlpha "name" ++ "\x27 的电源状态是: " ++ "未知" :=
  ⟨(C9_library_runner srvAlpha "timeout" [("powerstate", "on")]).1,
   (C9_library_runner srvAlpha "timeout" [("powerstate", "on")]).2.1,
   (C9_library_runner srvAlpha "timeout" []).2.2 rfl⟩

/-- C10: sel and chassis compare their subcommand case-insensitively: any
subcommand whose lowercase form is list (for sel) or status (for chassis) is
accepted and routed to the External-Tool Runner when the target resolves. -/
theorem C10_case_insensitive_subcommands (p : Plugin) (env : Env) (t sub1 sub2 : String)
    (srv : Json) (h : find_target_server p.servers t = some srv)
    (h1 : pyLower sub1 = "list") (h2 : pyLower sub2 = "status") :
    ipmi_sel p env sub1 t =
      (["正在对 \x27" ++ t ++ "\x27 查询 SEL 日志...",
        (run_ipmitool_cli_streaming p.ipmitool_path env.spawn srv ["sel", "list"]).1],
       ⟨[["sel", "list"]], []⟩) ∧
    ipmi_chassis p env sub2 t =
      (["正在对 \x27" ++ t ++ "\x27 查询机箱状态...",
        (run_ipmitool_cli_streaming p.ipmitool_path env.spawn srv ["chassis", "status"]).1],
       ⟨[["chassis", "status"]], []⟩) := by
  constructor
  · unfold ipmi_sel
    rw [if_neg (by simp [h1]), h]
  · unfold ipmi_chassis
    rw [if_neg (by simp [h2]), h]

/-- C10 witness: upper case LIST and mixed case Status are accepted. -/
theorem C10_case_insensitive_subcommands_witness :
    ipmi_sel pluginAlpha envPowerOn "LIST" "alpha" =
      (["正在对 \x27" ++ "alpha" ++ "\x27 查询 SEL 日志...",
        (run_ipmitool_cli_streaming pluginAlpha.ipmitool_path envPowerOn.spawn srvAlpha
          ["sel", "list"]).1],
       ⟨[["sel", "list"]], []⟩) ∧
    ipmi_chassis pluginAlpha envPowerOn "Status" "alpha" =
      (["正在对 \x27" ++ "alpha" ++ "\x27 查询机箱状态...",
        (run_ipmitool_cli_streaming pluginAlpha.ipmitool_path envPowerOn.spawn srvAlpha
          ["chassis", "status"]).1],
       ⟨[["chassis", "status"]], []⟩) :=
  C10_case_insensitive_subcommands pluginAlpha envPowerOn "alpha" "LIST" "Status" srvAlpha
    rfl (by decide) (by decide)

/-- C1 counterexample: with alpha the only registered name, dispatching power
at the unresolvable target omega replies only 未找到名为 omega 的服务器,
which does not contain the registered name alpha, so the reply does not list
the registered server names. -/
theorem C1_counterexample :
    serverStr srvAlpha "name" = "alpha" ∧
    ipmi_power pluginAlpha envPowerOn "omega" = ([notFoundReply "omega"], noCalls) ∧
    strContains (notFoundReply "omega") "alpha" = false := by
  exact ⟨rfl, rfl, by decide⟩

/-- C1 (amended): for every operation with an unresolvable target, the reply
is a single terminal reply naming the unresolved target (it does not list the
registered names) and neither execution strategy is invoked; for sel and
chassis an invalid subcommand instead yields its own usage reply, still with
no strategy call. -/
theorem C1_unresolved_target (p : Plugin) (env : Env) (t sub : String)
    (h : find_target_server p.servers t = none) :
    ipmi_power p env t = ([notFoundReply t], noCalls) ∧
    ipmi_sensors p env t = ([notFoundReply t], noCalls) ∧
    (∀ s, ipmi_sensor p env t s = ([notFoundReply t], noCalls)) ∧
    (∀ g, ipmi_group p env t g = some ([notFoundReply t], noCalls)) ∧
    ipmi_fru p env t = ([notFoundReply t], noCalls) ∧
    (pyLower sub = "list" → ipmi_sel p env sub t = ([notFoundReply t], noCalls)) ∧
    (pyLower sub = "status" → ipmi_chassis p env sub t = ([notFoundReply t], noCalls)) ∧
    (ipmi_sel p env sub t).2 = noCalls ∧
    (ipmi_chassis p env sub t).2 = noCalls := by
  refine ⟨?_, ?_, ?_, ?_, ?_, ?_, ?_, ?_, ?_⟩
  · unfold ipmi_power; rw [h]
  · unfold ipmi_sensors; rw [h]
  · intro s; unfold ipmi_sensor; rw [h]
  · intro g; unfold ipmi_group; rw [h]
  · unfold ipmi_fru; rw [h]
  · intro hl; unfold ipmi_sel; rw [if_neg (by simp [hl]), h]
  · intro hc; unfold ipmi_chassis; rw [if_neg (by simp [hc]), h]
  · by_cases hl : pyLower sub = "list"
    · unfold ipmi_sel; rw [if_neg (by simp [hl]), h]
    · unfold ipmi_sel; rw [if_pos hl]
  · by_cases hc : pyLower sub = "status"
    · unfold ipmi_chassis; rw [if_neg (by simp [hc]), h]
    · unfold ipmi_chassis; rw [if_pos hc]

/-- C1 witness at an unresolvable concrete target. -/
theorem C1_unresolved_target_witness :
    ipmi_power pluginAlpha envPowerOn "omega" = ([notFoundReply "omega"], noCalls) ∧
    ipmi_group pluginAlpha envPowerOn "omega" "temps" =
      some ([notFoundReply "omega"], noCalls) ∧
    ipmi_sel pluginAlpha envPowerOn "list" "omega" = ([notFoundReply "omega"], noCalls) := by
  have h := C1_unresolved_target pluginAlpha envPowerOn "omega" "list" rfl
  exact ⟨h.1, h.2.2.2.1 "temps", h.2.2.2.2.2.1 (by decide)⟩

/-- Helper: a group dispatch that returns a reply list has one or two
entries. -/
theorem group_reply_count (p : Plugin) (env : Env) (t g : String) :
    ∀ r, ipmi_group p env t g = some r → 1 ≤ r.1.length ∧ r.1.length ≤ 2 := by
  intro r h
  unfold ipmi_group at h
  rcases hf : find_target_server p.servers t with _ | srv <;> simp only [hf] at h
  · simp only [Option.some.injEq] at h
    subst h
    simp
  · by_cases hc : g = "" ∨ (getField (sensorGroupsGet p.sensor_groups t) g).isNone
    · rw [if_pos hc] at h
      simp only [Option.some.injEq] at h
      subst h
      simp
    · rw [if_neg hc] at h
      rcases hh : handle_sensor_group p env srv g with _ | pr <;> rw [hh] at h
      · simp at h
      · rcases pr with ⟨result, calls⟩
        simp only [Option.some.injEq] at h
        subst h
        simp

/-- C2 counterexample: a successful power dispatch produces two replies (a
progress reply and the result), not exactly one. -/
theorem C2_counterexample :
    (ipmi_power pluginAlpha envPowerOn "alpha").1.length = 2 ∧
    (ipmi_power pluginAlpha envPowerOn "alpha").1.length ≠ 1 := by
  exact ⟨rfl, by decide⟩

/-- C2 (amended): every dispatch in the modelled domain produces at least one
and at most two textual replies (one terminal reply, preceded by a progress
reply when execution proceeds), and faults of the external calls are caught
inside the execution strategies — not at a dispatcher boundary — and converted
to specific failure text (no generic check-the-logs reply exists). -/
theorem C2_reply_discipline (p : Plugin) (env : Env) (t s g sub path msg : String)
    (srv : Json) (parts : List String) (spawn : List String → SpawnOutcome) :
    (1 ≤ (ipmi_power p env t).1.length ∧ (ipmi_power p env t).1.length ≤ 2) ∧
    (1 ≤ (ipmi_sensors p env t).1.length ∧ (ipmi_sensors p env t).1.length ≤ 2) ∧
    (1 ≤ (ipmi_sensor p env t s).1.length ∧ (ipmi_sensor p env t s).1.length ≤ 2) ∧
    (∀ r, ipmi_group p env t g = some r → 1 ≤ r.1.length ∧ r.1.length ≤ 2) ∧
    (1 ≤ (ipmi_fru p env t).1.length ∧ (ipmi_fru p env t).1.length ≤ 2) ∧
    (1 ≤ (ipmi_sel p env sub t).1.length ∧ (ipmi_sel p env sub t).1.length ≤ 2) ∧
    (1 ≤ (ipmi_chassis p env sub t).1.length ∧ (ipmi_chassis p env sub t).1.length ≤ 2) ∧
    (spawn (buildCmd path srv parts) = SpawnOutcome.raised msg →
      run_ipmitool_cli_streaming (some path) spawn srv parts = (unexpectedReply msg, true)) ∧
    run_pyghmi_command srv "power" (PyghmiOutcome.raised msg) =
      "通过 pyghmi 获取信息失败: " ++ msg := by
  refine ⟨?_, ?_, ?_, group_reply_count p env t g, ?_, ?_, ?_, ?_, rfl⟩
  · rcases hf : find_target_server p.servers t with _ | srv2 <;> simp [ipmi_power, hf]
  · rcases hf : find_target_server p.servers t with _ | srv2 <;> simp [ipmi_sensors, hf]
  · rcases hf : find_target_server p.servers t with _ | srv2 <;> simp [ipmi_sensor, hf]
  · rcases hf : find_target_server p.servers t with _ | srv2 <;> simp [ipmi_fru, hf]
  · by_cases hl : pyLower sub = "list"
    · rcases hf : find_target_server p.servers t with _ | srv2 <;> simp [ipmi_sel, hl, hf]
    · simp [ipmi_sel, hl]
  · by_cases hc : pyLower sub = "status"
    · rcases hf : find_target_server p.servers t with _ | srv2 <;> simp [ipmi_chassis, hc, hf]
    · simp [ipmi_chassis, hc]
  · intro h
    simp only [run_ipmitool_cli_streaming]
    rw [h]

/-- C2 witness: reply bounds at a healthy dispatch, and fault conversion
inside both strategies at concrete faults. -/
theorem C2_reply_discipline_witness :
    (1 ≤ (ipmi_power pluginAlpha envPowerOn "alpha").1.length ∧
      (ipmi_power pluginAlpha envPowerOn "alpha").1.length ≤ 2) ∧
    run_ipmitool_cli_streaming (some "/tool") spawnRaise srvAlpha ["fru"] =
      (unexpectedReply "boom", true) ∧
    run_pyghmi_command srvAlpha "power" (PyghmiOutcome.raised "boom") =
      "通过 pyghmi 获取信息失败: " ++ "boom" := by
  have h := C2_reply_discipline pluginAlpha envPowerOn "alpha" "" "g" "list" "/tool" "boom"
    srvAlpha ["fru"] spawnRaise
  exact ⟨h.1, h.2.2.2.2.2.2.2.1 rfl, h.2.2.2.2.2.2.2.2⟩

/-- C6: when the group resolves to a non-empty list of sensor name strings,
the fan-out issues one runner invocation per sensor (command sensor get
name), and the reply is the group header followed by each sensor's own
formatted result — success or failure alike — joined in the original list
order; no sensor outcome is dropped. -/
theorem C6_group_fan_out (p : Plugin) (env : Env) (srv : Json) (group_name : String)
    (xs : List String) (hx : xs ≠ [])
    (hg : getField (sensorGroupsGet p.sensor_groups (serverStr srv "name")) group_name =
      some (Json.arr (xs.map Json.str))) :
    handle_sensor_group p env srv group_name =
      some (groupHeader group_name ++ String.intercalate "\n"
        (xs.map (fun sensor =>
          (run_ipmitool_cli_streaming p.ipmitool_path env.spawn srv
            ["sensor", "get", sensor]).1)),
        groupCalls xs) := by
  have hfalsy : jsonFalsy (Json.arr (xs.map Json.str)) = false := by
    cases xs with
    | nil => exact absurd rfl hx
    | cons a as => rfl
  simp only [handle_sensor_group, hg]
  simp only [hfalsy, pyIterStrs, strElems_map_str]
  simp only [groupCalls, List.map_map]
  rfl

/-- C6 witness at the spec's example: temps has CPU1_Temp succeeding with 40C
and CPU2_Temp failing with exit code 1; both blocks appear, in order. -/
theorem C6_group_fan_out_witness :
    handle_sensor_group pluginTemps envTemps srvAlpha "temps" =
      some (groupHeader "temps" ++ String.intercalate "\n"
        [successReply ["sensor", "get", "CPU1_Temp"] "40C",
         failureReply ["sensor", "get", "CPU2_Temp"] 1 "err"],
        [["sensor", "get", "CPU1_Temp"], ["sensor", "get", "CPU2_Temp"]]) := by
  have h := C6_group_fan_out pluginTemps envTemps srvAlpha "temps"
    ["CPU1_Temp", "CPU2_Temp"] (by decide) rfl
  exact h.trans (by decide)
